import Mathlib

/-!
Verification of the call-routing and benchmark logic of
`examples/python_ffi_example.py` (repository `dist_agent_lang`).

The script is shallowly embedded: Python exceptions become an explicit
error type carried by `Except`, the optional native extension module
becomes an `Option NativeModule` environment (a `none` models the
module-level `import dist_agent_lang` having failed, leaving the global
name unbound, so that referencing it raises `NameError`), the HTTP
server behind `requests.post` becomes a `Server` environment, the JSON
boundary (`json=args` serialization by `requests` and `response.json()`
parsing) is modelled by an executable JSON serializer and parser, and
`time.time()` readings become an explicit `Clock` of rational instants.
-/

/-- JSON values, modelling the payloads carried over the HTTP boundary
(`requests.post(url, json=args)` and `response.json()`).  Numbers are
modelled as integers, which covers every payload the script builds. -/
inductive Json where
  | null : Json
  | bool (b : Bool) : Json
  | num (n : Int) : Json
  | str (s : String) : Json
  | arr (elems : List Json) : Json
  | obj (fields : List (String × Json)) : Json
deriving Repr

/-- Escape one character the way `json.dumps` does for the characters the
script can produce. -/
def escapeChar (c : Char) : List Char :=
  if c = '"' then ['\\', '"']
  else if c = '\\' then ['\\', '\\']
  else if c = '\n' then ['\\', 'n']
  else if c = '\t' then ['\\', 't']
  else if c = '\r' then ['\\', 'r']
  else [c]

/-- Escape a whole string body for serialization. -/
def escapeString (s : String) : String :=
  String.mk ((s.data.map escapeChar).flatten)

mutual
/-- Serialization of a JSON value, modelling `json.dumps` with its default
separators `", "` and `": "` (what `requests.post(url, json=args)` puts on
the wire). -/
def Json.serialize : Json → String
  | .null => "null"
  | .bool true => "true"
  | .bool false => "false"
  | .num n => toString n
  | .str s => "\"" ++ escapeString s ++ "\""
  | .arr xs => "[" ++ serializeElems xs ++ "]"
  | .obj fs => "\x7b" ++ serializeFields fs ++ "\x7d"

/-- Serialize the comma-separated elements of a JSON array. -/
def serializeElems : List Json → String
  | [] => ""
  | [x] => Json.serialize x
  | x :: xs => Json.serialize x ++ ", " ++ serializeElems xs

/-- Serialize the comma-separated fields of a JSON object. -/
def serializeFields : List (String × Json) → String
  | [] => ""
  | [(k, v)] => "\"" ++ escapeString k ++ "\": " ++ Json.serialize v
  | (k, v) :: fs =>
      "\"" ++ escapeString k ++ "\": " ++ Json.serialize v ++ ", " ++ serializeFields fs
end

/-- Whitespace recognised between JSON tokens. -/
def isWs (c : Char) : Bool :=
  c = ' ' || c = '\n' || c = '\t' || c = '\r'

/-- Drop leading whitespace. -/
def skipWs : List Char → List Char
  | [] => []
  | c :: cs => if isWs c then skipWs cs else c :: cs

/-- Numeric value of a decimal digit character, if it is one. -/
def digitVal (c : Char) : Option Nat :=
  if '0' ≤ c ∧ c ≤ '9' then some (c.toNat - '0'.toNat) else none

/-- Split a maximal run of decimal digits off the front of the input. -/
def takeDigits : List Char → (List Nat × List Char)
  | [] => ([], [])
  | c :: cs =>
    match digitVal c with
    | some d => let p := takeDigits cs; (d :: p.1, p.2)
    | none => ([], c :: cs)

/-- Assemble a digit run into a natural number. -/
def digitsToNat (ds : List Nat) : Nat :=
  ds.foldl (fun a d => a * 10 + d) 0

/-- Parse a JSON number (integer form). -/
def parseNumber : List Char → Option (Json × List Char)
  | '-' :: cs =>
    match takeDigits cs with
    | ([], _) => none
    | (ds, rest) => some (.num (-(digitsToNat ds : Int)), rest)
  | cs =>
    match takeDigits cs with
    | ([], _) => none
    | (ds, rest) => some (.num (digitsToNat ds), rest)

/-- Decode one escape character inside a JSON string literal. -/
def unescapeChar (c : Char) : Option Char :=
  if c = '"' then some '"'
  else if c = '\\' then some '\\'
  else if c = '/' then some '/'
  else if c = 'n' then some '\n'
  else if c = 't' then some '\t'
  else if c = 'r' then some '\r'
  else none

/-- Parse the body of a JSON string literal (after the opening quote),
returning the decoded characters and the input after the closing quote. -/
def parseStrChars (fuel : Nat) (cs : List Char) : Option (List Char × List Char) :=
  match fuel with
  | 0 => none
  | fuel + 1 =>
    match cs with
    | [] => none
    | '"' :: rest => some ([], rest)
    | '\\' :: rest =>
      match rest with
      | [] => none
      | e :: rest2 =>
        match unescapeChar e with
        | none => none
        | some d => (parseStrChars fuel rest2).map (fun p => (d :: p.1, p.2))
    | c :: rest => (parseStrChars fuel rest).map (fun p => (c :: p.1, p.2))

mutual
/-- Parse one JSON value off the front of the input (fuel-bounded
recursive descent, modelling the parsing done by `response.json()`). -/
def parseVal (fuel : Nat) (cs : List Char) : Option (Json × List Char) :=
  match fuel with
  | 0 => none
  | fuel + 1 =>
    match skipWs cs with
    | 'n' :: 'u' :: 'l' :: 'l' :: rest => some (.null, rest)
    | 't' :: 'r' :: 'u' :: 'e' :: rest => some (.bool true, rest)
    | 'f' :: 'a' :: 'l' :: 's' :: 'e' :: rest => some (.bool false, rest)
    | '"' :: rest =>
      (parseStrChars (rest.length + 1) rest).map (fun p => (.str (String.mk p.1), p.2))
    | '[' :: rest =>
      (match skipWs rest with
       | ']' :: r2 => some (.arr [], r2)
       | r1 => (parseElems fuel r1).map (fun p => (.arr p.1, p.2)))
    | '\x7b' :: rest =>
      (match skipWs rest with
       | '\x7d' :: r2 => some (.obj [], r2)
       | r1 => (parseFields fuel r1).map (fun p => (.obj p.1, p.2)))
    | rest => parseNumber rest

/-- Parse the elements of a non-empty JSON array up to the closing
bracket. -/
def parseElems (fuel : Nat) (cs : List Char) : Option (List Json × List Char) :=
  match fuel with
  | 0 => none
  | fuel + 1 =>
    match parseVal fuel cs with
    | none => none
    | some (v, rest) =>
      match skipWs rest with
      | ',' :: r2 => (parseElems fuel r2).map (fun p => (v :: p.1, p.2))
      | ']' :: r2 => some ([v], r2)
      | _ => none

/-- Parse the fields of a non-empty JSON object up to the closing
brace. -/
def parseFields (fuel : Nat) (cs : List Char) :
    Option (List (String × Json) × List Char) :=
  match fuel with
  | 0 => none
  | fuel + 1 =>
    match skipWs cs with
    | '"' :: rest =>
      match parseStrChars (rest.length + 1) rest with
      | none => none
      | some (k, r1) =>
        match skipWs r1 with
        | ':' :: r2 =>
          (match parseVal fuel r2 with
           | none => none
           | some (v, r3) =>
             match skipWs r3 with
             | ',' :: r4 =>
               (parseFields fuel r4).map (fun p => ((String.mk k, v) :: p.1, p.2))
             | '\x7d' :: r4 => some ([(String.mk k, v)], r4)
             | _ => none)
        | _ => none
    | _ => none
end

/-- Parse a complete JSON document: one value, with only whitespace
allowed after it.  A `none` result models `response.json()` raising a
JSON decode error. -/
def Json.parse (s : String) : Option Json :=
  match parseVal (s.length + 1) s.data with
  | some (v, rest) =>
    match skipWs rest with
    | [] => some v
    | _ => none
  | none => none


/-- Failures of the `requests` transport itself (the POST never yields a
response object). -/
inductive NetExc where
  | connectionError : NetExc
  | timeout : NetExc
deriving DecidableEq, Repr

/-- The Python exceptions the script can raise or catch.  `nameError` is
what referencing the unbound global `dist_agent_lang` raises when the
module-level `import dist_agent_lang` failed; `jsonDecodeError` is what
`response.json()` raises on an unparseable body; `zeroDivisionError` is
what `iterations / elapsed` raises when `elapsed == 0.0`; `typeError`
stands for an ordinary execution failure inside a native call; `net`
wraps a transport failure of `requests.post`. -/
inductive PyExc where
  | nameError : PyExc
  | importError : PyExc
  | attributeError : PyExc
  | zeroDivisionError : PyExc
  | jsonDecodeError : PyExc
  | typeError : PyExc
  | net (e : NetExc) : PyExc
deriving DecidableEq, Repr

/-- Behaviour of the native extension module `dist_agent_lang`, when it
was successfully imported.  `construct` is the outcome of
`dist_agent_lang.DistAgentLangRuntime()` (an `AttributeError` result
models the class being absent), `call_function` the outcome of
`runtime.call_function(service_name, function_name, args)`, and
`hash_data` the outcome of one `dist_agent_lang.hash_data(data, "SHA256")`
call in the benchmark loop. -/
structure NativeModule where
  construct : Except PyExc Unit
  call_function : String → String → Json → Except PyExc Json
  hash_data : Except PyExc Json

/-- An HTTP response as seen by the client: a status code and a raw body.
The script never reads the status. -/
structure HttpResponse where
  status : Nat
  body : String
deriving DecidableEq, Repr

/-- The server behind `http://localhost:3000/api/{service}/{function}`:
given the two path components and the serialized JSON request body it
either produces a response or the transport fails. -/
structure Server where
  respond : String → String → String → Except NetExc HttpResponse

/-- Embedding of `call_via_http(service_name, function_name, args)`:
POST the JSON-serialized arguments to the service/function URL and
return `response.json()`.  The HTTP status is never inspected; the only
failure after a response arrives is a JSON decode error on the body. -/
def call_via_http (srv : Server) (service_name function_name : String)
    (args : Json) : Except PyExc Json :=
  match srv.respond service_name function_name (Json.serialize args) with
  | .error e => .error (.net e)
  | .ok resp =>
    match Json.parse resp.body with
    | some v => .ok v
    | none => .error .jsonDecodeError

/-- The body of the `try` block in `call_service`: look up the global
`dist_agent_lang` (a `NameError` if the module-level import failed and
the name is unbound), construct `DistAgentLangRuntime()`, and invoke
`runtime.call_function(service_name, function_name, args)`. -/
def attempt_ffi (m : Option NativeModule) (service_name function_name : String)
    (args : Json) : Except PyExc Json :=
  match m with
  | none => .error .nameError
  | some mod =>
    match mod.construct with
    | .error e => .error e
    | .ok _ => mod.call_function service_name function_name args

/-- Embedding of `call_service(service_name, function_name, args,
prefer_ffi)`.  The second component of the result counts how many times
the network strategy (`call_via_http`) was invoked.  Faithful to the
source: only `ImportError` and `AttributeError` from the FFI attempt are
caught (then control falls through to the HTTP call); every other
exception propagates. -/
def call_service (m : Option NativeModule) (srv : Server)
    (service_name function_name : String) (args : Json)
    (prefer_ffi : Bool) : Except PyExc Json × Nat :=
  if prefer_ffi then
    match attempt_ffi m service_name function_name args with
    | .ok v => (.ok v, 0)
    | .error .importError => (call_via_http srv service_name function_name args, 1)
    | .error .attributeError => (call_via_http srv service_name function_name args, 1)
    | .error e => (.error e, 0)
  else
    (call_via_http srv service_name function_name args, 1)

/-- Python float division `a / b`, which raises `ZeroDivisionError` when
the denominator is zero.  Times are modelled as rationals. -/
def pydiv (a b : ℚ) : Except PyExc ℚ :=
  if b = 0 then .error .zeroDivisionError else .ok (a / b)

/-- The benchmark payload: `data = b"test_data" * 1000`, decoded to a
string for the HTTP path. -/
def bench_data : String :=
  String.join (List.replicate 1000 "test_data")

/-- The argument list `[data.decode()]` sent on every HTTP benchmark
iteration. -/
def bench_args : Json :=
  .arr [.str bench_data]

/-- One iteration of the FFI benchmark loop:
`dist_agent_lang.hash_data(data, "SHA256")` — a `NameError` when the
global name is unbound, otherwise whatever the native call does. -/
def ffi_step (m : Option NativeModule) : Except PyExc Json :=
  match m with
  | none => .error .nameError
  | some mod => mod.hash_data

/-- The FFI benchmark loop: `for _ in range(n): dist_agent_lang.hash_data(...)`.
The first raising iteration aborts the loop. -/
def ffi_loop (m : Option NativeModule) : Nat → Except PyExc Unit
  | 0 => .ok ()
  | n + 1 =>
    match ffi_step m with
    | .ok _ => ffi_loop m n
    | .error e => .error e

/-- The HTTP benchmark loop:
`for _ in range(n): call_via_http("CryptoService", "hash_data", [data.decode()])`. -/
def http_loop (srv : Server) : Nat → Except PyExc Unit
  | 0 => .ok ()
  | n + 1 =>
    match call_via_http srv "CryptoService" "hash_data" bench_args with
    | .ok _ => http_loop srv n
    | .error e => .error e

/-- The four `time.time()` readings the benchmark takes: before/after the
FFI loop and before/after the HTTP loop. -/
structure Clock where
  t0 : ℚ
  t1 : ℚ
  t2 : ℚ
  t3 : ℚ
deriving DecidableEq, Repr

/-- One line of benchmark output, abstracting the script's `print` calls:
the FFI sample line (elapsed seconds and ops/sec), the
"FFI not available" notice, the HTTP sample line, and the speedup line. -/
inductive OutLine where
  | ffiLine (elapsed thr : ℚ) : OutLine
  | ffiNotAvailable : OutLine
  | httpLine (elapsed thr : ℚ) : OutLine
  | speedupLine (ratio : ℚ) : OutLine
deriving DecidableEq, Repr

/-- What a run of `benchmark_ffi_vs_http` observably does: the lines it
printed before finishing or dying, and the uncaught exception if one was
raised. -/
structure BenchOutcome where
  output : List OutLine
  exc : Option PyExc
deriving DecidableEq, Repr

/-- The `try`-guarded FFI half of the benchmark: run the loop, read the
clock, print the FFI line (whose f-string divides `iterations` by the
elapsed time).  Only `ImportError` is caught (printing the notice and
leaving `ffi_time = None`); every other exception — including the
`NameError` from an unbound module name and a `ZeroDivisionError` from
the print itself — propagates. -/
def ffi_stage (m : Option NativeModule) (c : Clock) :
    Except PyExc (List OutLine × Option ℚ) :=
  match ffi_loop m 10000 with
  | .error .importError => .ok ([.ffiNotAvailable], none)
  | .error e => .error e
  | .ok _ =>
    match pydiv 10000 (c.t1 - c.t0) with
    | .error e => .error e
    | .ok thr => .ok ([.ffiLine (c.t1 - c.t0) thr], some (c.t1 - c.t0))

/-- The unguarded HTTP half of the benchmark: run the loop, read the
clock, print the HTTP line (again dividing by the elapsed time).  Any
exception propagates. -/
def http_stage (srv : Server) (c : Clock) :
    Except PyExc (List OutLine × ℚ) :=
  match http_loop srv 10000 with
  | .error e => .error e
  | .ok _ =>
    match pydiv 10000 (c.t3 - c.t2) with
    | .error e => .error e
    | .ok thr => .ok ([.httpLine (c.t3 - c.t2) thr], c.t3 - c.t2)

/-- Embedding of `benchmark_ffi_vs_http()`: the FFI stage, then the HTTP
stage, then — when `ffi_time` is truthy (not `None` and not `0.0`) — the
speedup line `http_time / ffi_time`. -/
def benchmark_ffi_vs_http (m : Option NativeModule) (srv : Server)
    (c : Clock) : BenchOutcome :=
  match ffi_stage m c with
  | .error e => ⟨[], some e⟩
  | .ok (out1, ffi_time) =>
    match http_stage srv c with
    | .error e => ⟨out1, some e⟩
    | .ok (out2, http_time) =>
      match ffi_time with
      | none => ⟨out1 ++ out2, none⟩
      | some ft =>
        if ft = 0 then ⟨out1 ++ out2, none⟩
        else ⟨out1 ++ out2 ++ [.speedupLine (http_time / ft)], none⟩

/-- A loop whose single iteration succeeds runs to completion. -/
theorem ffi_loop_ok {m : Option NativeModule} {v : Json}
    (h : ffi_step m = .ok v) : ∀ n, ffi_loop m n = .ok ()
  | 0 => rfl
  | n + 1 => by simp [ffi_loop, h, ffi_loop_ok h n]

/-- A loop whose single iteration raises aborts with that exception on
any positive iteration count. -/
theorem ffi_loop_err {m : Option NativeModule} {e : PyExc}
    (h : ffi_step m = .error e) {n : Nat} (hn : 0 < n) :
    ffi_loop m n = .error e := by
  cases n with
  | zero => exact absurd hn (by simp)
  | succ k => simp [ffi_loop, h]

/-- An HTTP loop whose single request succeeds runs to completion. -/
theorem http_loop_ok {srv : Server} {v : Json}
    (h : call_via_http srv "CryptoService" "hash_data" bench_args = .ok v) :
    ∀ n, http_loop srv n = .ok ()
  | 0 => rfl
  | n + 1 => by simp [http_loop, h, http_loop_ok h n]

/-- An HTTP loop whose single request raises aborts with that exception
on any positive iteration count. -/
theorem http_loop_err {srv : Server} {e : PyExc}
    (h : call_via_http srv "CryptoService" "hash_data" bench_args = .error e)
    {n : Nat} (hn : 0 < n) : http_loop srv n = .error e := by
  cases n with
  | zero => exact absurd hn (by simp)
  | succ k => simp [http_loop, h]

/-- A server that answers every request with status 200 and JSON body
`1`. -/
def srvOk : Server := ⟨fun _ _ _ => .ok ⟨200, "1"⟩⟩

/-- A server that answers every request with the non-success status 500
and the JSON-parseable body `[1]`. -/
def srv500 : Server := ⟨fun _ _ _ => .ok ⟨500, "[1]"⟩⟩

/-- A server that answers with status 200 and a body that is not JSON. -/
def srvBad : Server := ⟨fun _ _ _ => .ok ⟨200, "oops"⟩⟩

/-- A stub server that echoes its JSON request body back with status
200. -/
def echoServer : Server := ⟨fun _ _ body => .ok ⟨200, body⟩⟩

/-- A native module whose runtime constructs and whose calls succeed. -/
def modOk : NativeModule :=
  ⟨.ok (), fun _ _ _ => .ok (.str "native"), .ok (.str "h")⟩

/-- A native module whose runtime constructs but whose calls raise
`AttributeError` (e.g. the invocation touches a missing attribute). -/
def modAttr : NativeModule :=
  ⟨.ok (), fun _ _ _ => .error .attributeError, .error .attributeError⟩

/-- A native module whose runtime constructs but whose calls raise
`TypeError` (a plain execution failure). -/
def modType : NativeModule :=
  ⟨.ok (), fun _ _ _ => .error .typeError, .error .typeError⟩

/-- A native module whose calls raise `ImportError` (e.g. a lazy import
inside the native code fails). -/
def modImp : NativeModule :=
  ⟨.ok (), fun _ _ _ => .error .importError, .error .importError⟩

/-- A benchmark clock: FFI loop from 0 to 2, HTTP loop from 3 to 8. -/
def clk0 : Clock := ⟨0, 2, 3, 8⟩

/-- C1 counterexample: the native runtime constructs (the transport is
reachable) and the call itself fails — with an `AttributeError`, i.e. a
`StrategyExecutionError` in the spec's taxonomy — yet `call_service`
does not propagate the error: it invokes the network strategy (one
network call) and returns the network result. -/
theorem c1_counterexample :
    modAttr.construct = .ok () ∧
    attempt_ffi (some modAttr) "CryptoService" "hash_data" (.arr [.str "x"])
      = .error .attributeError ∧
    call_service (some modAttr) srvOk "CryptoService" "hash_data"
      (.arr [.str "x"]) true = (.ok (.num 1), 1) :=
  ⟨rfl, rfl, rfl⟩

/-- C1 (amended): with `prefer_ffi = true` the native strategy is
attempted first; when the attempt raises `ImportError` or
`AttributeError` the dispatcher invokes the network strategy with the
same three arguments (one network call); any other exception —
including the `NameError` raised when the native module was never
imported — is propagated to the caller and the network strategy is
never invoked. -/
theorem c1_dispatch_rule (m : Option NativeModule) (srv : Server)
    (sname fname : String) (args : Json) (e : PyExc)
    (h : attempt_ffi m sname fname args = .error e) :
    ((e = .importError ∨ e = .attributeError) →
      call_service m srv sname fname args true
        = (call_via_http srv sname fname args, 1)) ∧
    (e ≠ .importError → e ≠ .attributeError →
      call_service m srv sname fname args true = (.error e, 0)) := by
  constructor
  · rintro (rfl | rfl) <;> simp [call_service, h]
  · intro h1 h2
    cases e <;> simp_all [call_service, h]

/-- Witness for C1: an `ImportError` from the native attempt routes to
the network strategy, a `TypeError` propagates with zero network
calls. -/
theorem c1_dispatch_rule_witness :
    call_service (some modImp) srvOk "S" "f" .null true
      = (call_via_http srvOk "S" "f" .null, 1) ∧
    call_service (some modType) srvOk "S" "f" .null true
      = (.error .typeError, 0) :=
  ⟨(c1_dispatch_rule (some modImp) srvOk "S" "f" .null .importError rfl).1
      (Or.inl rfl),
   (c1_dispatch_rule (some modType) srvOk "S" "f" .null .typeError rfl).2
      (by decide) (by decide)⟩

/-- C2: the claimed fallback equivalence fails when the native module is
absent.  The module-level `import dist_agent_lang` having failed leaves
the global name unbound, so the FFI attempt raises `NameError`, which
the `except (ImportError, AttributeError)` clause does not catch:
`prefer_ffi = true` propagates `NameError` with zero network calls,
while `prefer_ffi = false` returns the HTTP result. -/
theorem c2_code_bug :
    call_service none srvOk "CryptoService" "hash_data" (.arr [.str "x"]) true
      = (.error .nameError, 0) ∧
    call_service none srvOk "CryptoService" "hash_data" (.arr [.str "x"]) false
      = (.ok (.num 1), 1) :=
  ⟨rfl, rfl⟩

/-- C3: whenever the native attempt succeeds with value `v`,
`call_service` with `prefer_ffi = true` returns `v` and makes zero
network calls, for every server. -/
theorem c3_native_success_no_network (m : Option NativeModule) (srv : Server)
    (sname fname : String) (args : Json) (v : Json)
    (h : attempt_ffi m sname fname args = .ok v) :
    call_service m srv sname fname args true = (.ok v, 0) := by
  simp [call_service, h]

/-- Witness for C3 at a concrete succeeding native module. -/
theorem c3_witness :
    attempt_ffi (some modOk) "CryptoService" "batch_hash" (.arr [])
      = .ok (.str "native") ∧
    call_service (some modOk) srvOk "CryptoService" "batch_hash" (.arr []) true
      = (.ok (.str "native"), 0) :=
  ⟨rfl, c3_native_success_no_network (some modOk) srvOk "CryptoService"
      "batch_hash" (.arr []) (.str "native") rfl⟩

/-- C4 counterexample: a response with the non-success status 500 whose
body parses as JSON is returned as a successful result — the network
strategy does not fail on a non-2xx status, contrary to the claim. -/
theorem c4_counterexample :
    srv500.respond "CryptoService" "hash_data" (Json.serialize (.str "x"))
      = .ok ⟨500, "[1]"⟩ ∧
    call_via_http srv500 "CryptoService" "hash_data" (.str "x")
      = .ok (.arr [.num 1]) :=
  ⟨rfl, rfl⟩

/-- C4 (amended): the network strategy never inspects the HTTP status —
for a fixed response body the outcome is the same for every status, and
it is a success exactly when the body parses as JSON (a JSON decode
error otherwise).  Moreover its failures are only JSON decode errors or
transport errors, never one of the exception classes the dispatcher
treats as unavailability (`NameError`, `ImportError`,
`AttributeError`). -/
theorem c4_status_ignored (status : Nat) (body : String)
    (sname fname : String) (args : Json) :
    (call_via_http ⟨fun _ _ _ => .ok ⟨status, body⟩⟩ sname fname args =
      match Json.parse body with
      | some v => .ok v
      | none => .error .jsonDecodeError) ∧
    (∀ (srv : Server) (e : PyExc),
      call_via_http srv sname fname args = .error e →
        e = .jsonDecodeError ∨ ∃ ne, e = .net ne) := by
  constructor
  · cases h : Json.parse body <;> simp [call_via_http, h]
  · intro srv e he
    unfold call_via_http at he
    cases hr : srv.respond sname fname (Json.serialize args) with
    | error ne =>
      simp only [hr] at he
      exact Or.inr ⟨ne, by injection he with h2; exact h2.symm⟩
    | ok resp =>
      simp only [hr] at he
      cases hp : Json.parse resp.body with
      | some v => simp [hp] at he
      | none =>
        simp only [hp] at he
        exact Or.inl (by injection he with h2; exact h2.symm)

/-- Witness for C4: a status-200 response with a non-JSON body yields a
JSON decode error, which is in the allowed failure classes. -/
theorem c4_witness :
    call_via_http srvBad "CryptoService" "hash_data" (.str "x")
      = .error .jsonDecodeError ∧
    (PyExc.jsonDecodeError = PyExc.jsonDecodeError ∨
      ∃ ne, PyExc.jsonDecodeError = PyExc.net ne) :=
  ⟨rfl, (c4_status_ignored 200 "oops" "CryptoService" "hash_data"
      (.str "x")).2 srvBad .jsonDecodeError rfl⟩

/-- C5: the argument list `["a","b","c"]` serializes to the JSON text
the wire carries, and sending it through the network strategy to a stub
server that echoes its request body back parses to a result deep-equal
to the original arguments (serialize/deserialize round trip). -/
theorem c5_roundtrip :
    Json.serialize (.arr [.str "a", .str "b", .str "c"])
      = "[\"a\", \"b\", \"c\"]" ∧
    call_via_http echoServer "CryptoService" "batch_hash"
      (.arr [.str "a", .str "b", .str "c"])
      = .ok (.arr [.str "a", .str "b", .str "c"]) :=
  ⟨rfl, rfl⟩

/-- C6: when the native module is absent the benchmark does not report a
network-only sample: the first FFI iteration raises `NameError` (the
global name is unbound), `except ImportError` does not catch it, and the
whole benchmark aborts with no output at all. -/
theorem c6_code_bug :
    benchmark_ffi_vs_http none srvOk clk0 = ⟨[], some .nameError⟩ := by
  have h : ffi_loop none 10000 = .error .nameError :=
    ffi_loop_err (show ffi_step none = .error .nameError from rfl) (by norm_num)
  simp [benchmark_ffi_vs_http, ffi_stage, h]

/-- C7: when both loops complete and both elapsed times are positive,
the benchmark prints both samples with throughput
`iterations / elapsed` and a speedup line `http_time / ffi_time`, and
that ratio equals `throughput(native) / throughput(network)`. -/
theorem c7_speedup_ratio (m : Option NativeModule) (srv : Server) (c : Clock)
    (hf : ffi_loop m 10000 = .ok ()) (hh : http_loop srv 10000 = .ok ())
    (hfp : 0 < c.t1 - c.t0) (hhp : 0 < c.t3 - c.t2) :
    benchmark_ffi_vs_http m srv c =
      ⟨[.ffiLine (c.t1 - c.t0) (10000 / (c.t1 - c.t0)),
        .httpLine (c.t3 - c.t2) (10000 / (c.t3 - c.t2)),
        .speedupLine ((c.t3 - c.t2) / (c.t1 - c.t0))], none⟩ ∧
    (c.t3 - c.t2) / (c.t1 - c.t0)
      = (10000 / (c.t1 - c.t0)) / (10000 / (c.t3 - c.t2)) := by
  have hf0 : c.t1 - c.t0 ≠ 0 := ne_of_gt hfp
  have hh0 : c.t3 - c.t2 ≠ 0 := ne_of_gt hhp
  constructor
  · simp [benchmark_ffi_vs_http, ffi_stage, http_stage, hf, hh, pydiv, hf0, hh0]
  · rw [div_div_div_comm, div_self (by norm_num : (10000 : ℚ) ≠ 0), one_div_div]

/-- Witness for C7: both strategies succeed, the FFI loop takes 2
seconds and the HTTP loop 5 seconds, so the speedup line carries 5/2 and
equals 5000 ops/sec divided by 2000 ops/sec. -/
theorem c7_witness :
    benchmark_ffi_vs_http (some modOk) srvOk clk0 =
      ⟨[.ffiLine (2 - 0) (10000 / (2 - 0)),
        .httpLine (8 - 3) (10000 / (8 - 3)),
        .speedupLine ((8 - 3) / (2 - 0))], none⟩ ∧
    ((8 : ℚ) - 3) / (2 - 0) = (10000 / (2 - 0)) / (10000 / (8 - 3)) :=
  c7_speedup_ratio (some modOk) srvOk clk0
    (ffi_loop_ok (show ffi_step (some modOk) = .ok (.str "h") from rfl) 10000)
    (http_loop_ok
      (show call_via_http srvOk "CryptoService" "hash_data" bench_args
        = .ok (.num 1) from rfl) 10000)
    (by norm_num [clk0]) (by norm_num [clk0])

/-- C8 counterexample: a run whose FFI loop succeeds but takes zero
elapsed time dies with `ZeroDivisionError` from the throughput division
in the FFI print — no sentinel value is produced. -/
theorem c8_counterexample :
    benchmark_ffi_vs_http (some modOk) srvOk ⟨5, 5, 6, 8⟩
      = ⟨[], some .zeroDivisionError⟩ := by
  have h : ffi_loop (some modOk) 10000 = .ok () :=
    ffi_loop_ok (show ffi_step (some modOk) = .ok (.str "h") from rfl) 10000
  simp [benchmark_ffi_vs_http, ffi_stage, h, pydiv]

/-- C8 (amended): each throughput is computed as
`iterations / elapsed_seconds` with no guard: when the elapsed time is
nonzero the printed sample carries exactly that quotient, and when it is
zero the division raises `ZeroDivisionError` and the benchmark aborts
(losing the network measurement entirely in the FFI case). -/
theorem c8_throughput_rule (m : Option NativeModule) (srv : Server)
    (c : Clock) (v : Json) (hstep : ffi_step m = .ok v) :
    (c.t1 - c.t0 = 0 →
      benchmark_ffi_vs_http m srv c = ⟨[], some .zeroDivisionError⟩) ∧
    (c.t1 - c.t0 ≠ 0 → ∃ rest, (benchmark_ffi_vs_http m srv c).output
        = .ffiLine (c.t1 - c.t0) ((10000 : ℚ) / (c.t1 - c.t0)) :: rest) ∧
    (c.t1 - c.t0 ≠ 0 → http_loop srv 10000 = .ok () → c.t3 - c.t2 = 0 →
      benchmark_ffi_vs_http m srv c
        = ⟨[.ffiLine (c.t1 - c.t0) ((10000 : ℚ) / (c.t1 - c.t0))],
           some .zeroDivisionError⟩) := by
  have hl : ffi_loop m 10000 = .ok () := ffi_loop_ok hstep 10000
  refine ⟨?_, ?_, ?_⟩
  · intro h0
    simp [benchmark_ffi_vs_http, ffi_stage, hl, pydiv, h0]
  · intro h0
    simp only [benchmark_ffi_vs_http, ffi_stage, hl, pydiv, if_neg h0]
    cases hhs : http_stage srv c with
    | error e => exact ⟨[], by simp⟩
    | ok p =>
      rcases p with ⟨out2, ht⟩
      by_cases hz : c.t1 - c.t0 = 0
      · exact absurd hz h0
      · simp [hz]
  · intro h0 hhl hz
    simp [benchmark_ffi_vs_http, ffi_stage, http_stage, hl, hhl, pydiv, h0, hz]

/-- Witness for C8: with elapsed FFI time 0 the benchmark aborts with
`ZeroDivisionError`; with elapsed FFI time 2 and elapsed HTTP time 0 the
FFI sample is printed with throughput 10000/2 and then the HTTP
throughput division aborts the run. -/
theorem c8_witness :
    benchmark_ffi_vs_http (some modOk) srvOk ⟨3, 3, 6, 8⟩
      = ⟨[], some .zeroDivisionError⟩ ∧
    benchmark_ffi_vs_http (some modOk) srvOk ⟨0, 2, 6, 6⟩
      = ⟨[.ffiLine (2 - 0) ((10000 : ℚ) / (2 - 0))],
         some .zeroDivisionError⟩ :=
  ⟨(c8_throughput_rule (some modOk) srvOk ⟨3, 3, 6, 8⟩ (.str "h") rfl).1
      (by norm_num),
   (c8_throughput_rule (some modOk) srvOk ⟨0, 2, 6, 6⟩ (.str "h") rfl).2.2
      (by norm_num)
      (http_loop_ok
        (show call_via_http srvOk "CryptoService" "hash_data" bench_args
          = .ok (.num 1) from rfl) 10000)
      (by norm_num)⟩

/-- C9 counterexample: a native benchmark iteration failing with
`TypeError` aborts the whole benchmark — the network strategy is never
measured, contradicting the claim that the other strategy's measurement
is unaffected. -/
theorem c9_counterexample :
    benchmark_ffi_vs_http (some modType) srvOk clk0
      = ⟨[], some .typeError⟩ := by
  have h : ffi_loop (some modType) 10000 = .error .typeError :=
    ffi_loop_err (show ffi_step (some modType) = .error .typeError from rfl)
      (by norm_num)
  simp [benchmark_ffi_vs_http, ffi_stage, h]

/-- C9 (amended): a failing iteration aborts that strategy's loop, but
the effect on the rest of the run is asymmetric: a native iteration
failing with `ImportError` is caught, the native sample is replaced by
the "FFI not available" notice and the network is still measured; a
native iteration failing with any other exception aborts the entire
benchmark before the network is measured; a failing network iteration
propagates after the native sample line was already produced, leaving
the native measurement intact. -/
theorem c9_iteration_failure_rule (m : Option NativeModule) (srv : Server)
    (c : Clock) (e : PyExc) :
    (ffi_step m = .error e → e ≠ .importError →
      benchmark_ffi_vs_http m srv c = ⟨[], some e⟩) ∧
    (ffi_step m = .error .importError →
      benchmark_ffi_vs_http m srv c =
        (match http_stage srv c with
         | .ok (out2, _) => ⟨.ffiNotAvailable :: out2, none⟩
         | .error e2 => ⟨[.ffiNotAvailable], some e2⟩)) ∧
    (∀ out1 t, ffi_stage m c = .ok (out1, some t) →
      call_via_http srv "CryptoService" "hash_data" bench_args = .error e →
      benchmark_ffi_vs_http m srv c = ⟨out1, some e⟩) := by
  refine ⟨?_, ?_, ?_⟩
  · intro hs hne
    have hl := ffi_loop_err hs (show (0 : Nat) < 10000 by norm_num)
    cases e <;> simp_all [benchmark_ffi_vs_http, ffi_stage]
  · intro hs
    have hl := ffi_loop_err hs (show (0 : Nat) < 10000 by norm_num)
    cases hhs : http_stage srv c with
    | error e2 => simp [benchmark_ffi_vs_http, ffi_stage, hl, hhs]
    | ok p =>
      rcases p with ⟨out2, ht⟩
      simp [benchmark_ffi_vs_http, ffi_stage, hl, hhs]
  · intro out1 t hfs hcall
    have hh := http_loop_err hcall (show (0 : Nat) < 10000 by norm_num)
    simp [benchmark_ffi_vs_http, hfs, http_stage, hh]

/-- Witness for C9: a `TypeError` iteration wipes out the whole run; an
`ImportError` iteration still lets the network sample be produced; a
network-side JSON decode failure leaves the already-printed FFI sample
in place. -/
theorem c9_witness :
    benchmark_ffi_vs_http (some modType) srvBad clk0
      = ⟨[], some .typeError⟩ ∧
    benchmark_ffi_vs_http (some modImp) srvOk clk0
      = ⟨[.ffiNotAvailable, .httpLine (8 - 3) ((10000 : ℚ) / (8 - 3))],
         none⟩ ∧
    benchmark_ffi_vs_http (some modOk) srvBad clk0
      = ⟨[.ffiLine (2 - 0) ((10000 : ℚ) / (2 - 0))],
         some .jsonDecodeError⟩ := by
  refine ⟨?_, ?_, ?_⟩
  · exact (c9_iteration_failure_rule (some modType) srvBad clk0 .typeError).1
      rfl (by decide)
  · have hstage : http_stage srvOk clk0
        = .ok ([.httpLine (8 - 3) ((10000 : ℚ) / (8 - 3))], 8 - 3) := by
      have hl : http_loop srvOk 10000 = .ok () :=
        http_loop_ok
          (show call_via_http srvOk "CryptoService" "hash_data" bench_args
            = .ok (.num 1) from rfl) 10000
      simp [http_stage, hl, pydiv, clk0]
      norm_num
    have h2 := (c9_iteration_failure_rule (some modImp) srvOk clk0
        .importError).2.1 rfl
    rw [hstage] at h2
    exact h2
  · have hfs : ffi_stage (some modOk) clk0
        = .ok ([.ffiLine (2 - 0) ((10000 : ℚ) / (2 - 0))], some (2 - 0)) := by
      have hl : ffi_loop (some modOk) 10000 = .ok () :=
        ffi_loop_ok (show ffi_step (some modOk) = .ok (.str "h") from rfl) 10000
      simp [ffi_stage, hl, pydiv, clk0]
    exact (c9_iteration_failure_rule (some modOk) srvBad clk0
        .jsonDecodeError).2.2 _ _ hfs rfl

/-- C10: the dispatcher's fallback is keyed purely on the Python
exception class: an FFI attempt failing with `AttributeError` — even one
raised while invoking a perfectly constructed runtime — is silently
routed to the network strategy exactly like an `ImportError`, while an
attempt failing with any other exception class propagates unchanged with
zero network calls. -/
theorem c10_exception_classes (m : Option NativeModule) (srv : Server)
    (sname fname : String) (args : Json) :
    (attempt_ffi m sname fname args = .error .attributeError →
      call_service m srv sname fname args true
        = (call_via_http srv sname fname args, 1)) ∧
    (attempt_ffi m sname fname args = .error .importError →
      call_service m srv sname fname args true
        = (call_via_http srv sname fname args, 1)) ∧
    (∀ e, attempt_ffi m sname fname args = .error e →
      e ≠ .importError → e ≠ .attributeError →
      call_service m srv sname fname args true = (.error e, 0)) := by
  refine ⟨?_, ?_, ?_⟩
  · intro h; simp [call_service, h]
  · intro h; simp [call_service, h]
  · intro e h h1 h2
    cases e <;> simp_all [call_service, h]

/-- Witness for C10: the `AttributeError` module is routed to the
network (which answers `1`), and the `NameError` of an absent module
propagates with zero network calls. -/
theorem c10_witness :
    call_service (some modAttr) srvOk "CryptoService" "hash_data" .null true
      = (call_via_http srvOk "CryptoService" "hash_data" .null, 1) ∧
    call_service none srvOk "CryptoService" "hash_data" .null true
      = (.error .nameError, 0) :=
  ⟨(c10_exception_classes (some modAttr) srvOk "CryptoService" "hash_data"
      .null).1 rfl,
   (c10_exception_classes none srvOk "CryptoService" "hash_data"
      .null).2.2 .nameError rfl (by decide) (by decide)⟩
